import Mathlib

/-!
Verification development for the SalesProposalAI repository.

The Python sources under scrutiny are `pptx_utils.py`, `pdf_utils.py`,
`proposals.py`, `config.py`, `db.py` and `llm.py`.  The development below is a
shallow embedding: pure fragments of the code become Lean functions, the
orchestration in `proposals.py` becomes a pure function returning an event
trace together with an outcome, and Python's floating-point money arithmetic
is modelled as exact scaled-decimal arithmetic (the spec, section 3, accepts
decimal arithmetic with rounding to the nearest whole currency unit).

Modelling conventions:
  * Python strings are Lean `String`s; the string methods used by the code
    (`lower`, `strip`, `replace`, `in`, `title`) are re-implemented over
    `List Char` so that they evaluate inside the kernel.
  * `float(...)` applied to a currency string is modelled by an exact decimal
    parser `parseFloat?`; a parse failure models the `ValueError` raised by
    Python.
  * Slide decks are lists; the `python-pptx` XML identifier list `_sldIdLst`
    is a list of distinct slide identifiers.
  * Filesystem side effects (temporary files, LibreOffice subprocesses) are
    abstracted into trace events; the registry of templates is passed in as a
    list of location records, mirroring one entry of `LOCATION_METADATA` plus
    the `key -> filename` mapping and `UPLOAD_FEES_MAPPING` of `config.py`.
-/

/-! ### Python string primitives -/

/-- Model of Python `str.lower()` (the repository only feeds it ASCII). -/
def pyLower (s : String) : String := ⟨s.data.map Char.toLower⟩

/-- Model of Python `str.strip()`: drop whitespace from both ends. -/
def pyStrip (s : String) : String :=
  ⟨((s.data.dropWhile Char.isWhitespace).reverse.dropWhile Char.isWhitespace).reverse⟩

/-- Model of Python `str.upper()` on a single character run start, used by
`str.title()`. -/
def pyTitleAux : Bool → List Char → List Char
  | _, [] => []
  | prevAlpha, c :: rest =>
    if c.isAlpha then
      (if prevAlpha then c.toLower else c.toUpper) :: pyTitleAux true rest
    else
      c :: pyTitleAux false rest

/-- Model of Python `str.title()`: first letter of every alphabetic run is
upper-cased, the rest lower-cased. -/
def pyTitle (s : String) : String := ⟨pyTitleAux false s.data⟩

def strRemoveAux (pat : List Char) : Nat → List Char → List Char
  | 0, l => l
  | _, [] => []
  | fuel + 1, c :: rest =>
    if pat.isPrefixOf (c :: rest) then strRemoveAux pat fuel ((c :: rest).drop pat.length)
    else c :: strRemoveAux pat fuel rest

/-- Model of Python `s.replace(pat, "")` for a nonempty pattern: delete every
(left-to-right, non-overlapping) occurrence of `pat`. -/
def strRemove (s pat : String) : String :=
  ⟨strRemoveAux pat.data s.data.length s.data⟩

/-- Model of the Python substring test `sub in s`. -/
def strContainsSub (s sub : String) : Bool :=
  s.data.tails.any (fun t => sub.data.isPrefixOf t)

/-! ### Exact decimal arithmetic (model of the Python float money arithmetic)

A `Dec` denotes the rational number `num / 10 ^ exp`.  Addition and
multiplication are exact; this models the repository's float arithmetic on
currency amounts, which the spec explicitly allows to be read as decimal
arithmetic.  All operations avoid `Nat.gcd`, so they evaluate by `decide`. -/

structure Dec where
  num : Int
  exp : Nat
  deriving DecidableEq

def Dec.ofInt (n : Int) : Dec := ⟨n, 0⟩

def Dec.add (a b : Dec) : Dec :=
  ⟨a.num * (10 : Int) ^ b.exp + b.num * (10 : Int) ^ a.exp, a.exp + b.exp⟩

def Dec.mul (a b : Dec) : Dec := ⟨a.num * b.num, a.exp + b.exp⟩

/-- The rational value denoted by a `Dec`. -/
def Dec.toQ (d : Dec) : ℚ := (d.num : ℚ) / 10 ^ d.exp

/-- Round a `Dec` to the nearest integer, ties to even — the rounding used by
Python's `format(v, ',.0f')`. -/
def Dec.roundHalfEven (d : Dec) : Int :=
  let n : Int := (10 : Int) ^ d.exp
  let q := d.num.fdiv n
  let r := d.num - q * n
  if 2 * r < n then q
  else if 2 * r > n then q + 1
  else if q % 2 = 0 then q else q + 1

/-- Specification-level rounding on ℚ: nearest integer, ties to even. -/
def ratRoundHalfEven (q : ℚ) : Int :=
  let f := ⌊q⌋
  if q - f < 1 / 2 then f
  else if q - f > 1 / 2 then f + 1
  else if f % 2 = 0 then f else f + 1

def natVal (cs : List Char) : Nat :=
  cs.foldl (fun a c => a * 10 + (c.toNat - '0'.toNat)) 0

/-- Model of Python `float(s)` on the strings this repository feeds it:
an optional sign followed by a decimal numeral (digits, optionally with a
fractional part).  Exponent and special forms never occur here and are
omitted.  `none` models the `ValueError` Python raises. -/
def parseFloat? (s : String) : Option Dec :=
  match s.data with
  | [] => none
  | cs =>
    let (sign, rest) : Int × List Char :=
      match cs with
      | '-' :: r => (-1, r)
      | '+' :: r => (1, r)
      | r => (1, r)
    let intPart := rest.takeWhile (·.isDigit)
    let rest2 := rest.drop intPart.length
    match rest2 with
    | [] => if intPart.isEmpty then none else some ⟨sign * natVal intPart, 0⟩
    | '.' :: frac =>
      let fracD := frac.takeWhile (·.isDigit)
      if !(frac.drop fracD.length).isEmpty then none
      else if intPart.isEmpty && fracD.isEmpty then none
      else some ⟨sign * natVal (intPart ++ fracD), fracD.length⟩
    | _ => none

def commaRev : List Char → List Char
  | a :: b :: c :: d :: rest => a :: b :: c :: ',' :: commaRev (d :: rest)
  | l => l

/-- Decimal digits of `n` grouped in threes with commas, as Python's `,`
format specifier renders a nonnegative integer. -/
def commaGroup (n : Nat) : String :=
  ⟨(commaRev (Nat.toDigits 10 n).reverse).reverse⟩

/-- Comma-grouped rendering of an integer (sign, then grouped digits). -/
def intComma (n : Int) : String :=
  (if n < 0 then "-" else "") ++ commaGroup n.natAbs

/-- Model of the f-string `f"AED {v:,.0f}"` from `pptx_utils.py`. -/
def formatAED (d : Dec) : String := "AED " ++ intComma d.roundHalfEven

/-! ### pptx_utils.py — financial arithmetic -/

/-- Model of `float(net_rate_str.replace("AED", "").replace(",", "").strip())`
from `pptx_utils.py` line 131 (and its copies in `proposals.py`). -/
def pyFloatRate? (s : String) : Option Dec :=
  parseFloat? (pyStrip (strRemove (strRemove s "AED") ","))

/-- Embedding of `_calc_vat_and_total_for_rates` (`pptx_utils.py` lines
127-137): per net-rate string, `subtotal = net_rate + upload_fee +
municipality_fee`, `vat = subtotal * 0.05`, `total = subtotal + vat`, both
formatted with `f"AED {v:,.0f}"`.  A `none` result models the `ValueError`
raised when a net-rate string does not parse (the loop fails at the first bad
string). -/
def calc_vat_and_total_for_rates :
    List String → Dec → Dec → Option (List String × List String)
  | [], _, _ => some ([], [])
  | net_rate_str :: rest, upload_fee, municipality_fee => do
    let net_rate ← pyFloatRate? net_rate_str
    let subtotal := (net_rate.add upload_fee).add municipality_fee
    let vat := subtotal.mul ⟨5, 2⟩
    let total := subtotal.add vat
    let (vats, totals) ← calc_vat_and_total_for_rates rest upload_fee municipality_fee
    pure (formatAED vat :: vats, formatAED total :: totals)

/-! ### pptx_utils.py — table layout scaling

`create_financial_proposal_slide` (lines 215-297) computes
`scale_x = slide_width / Inches(20)`, `scale_y = slide_height / Inches(12)`,
`scale = min(scale_x, scale_y)`, then sizes every absolute measurement with
`int(...)` truncation.  Slide dimensions are EMU integers; the arithmetic is
modelled over ℚ. -/

/-- `pptx.util.Inches`: EMU per inch is 914400. -/
def Inches (q : ℚ) : ℚ := q * 914400

/-- Python `int(...)` truncation toward zero, on an exact rational. -/
def pyInt (q : ℚ) : Int := if q < 0 then -⌊-q⌋ else ⌊q⌋

def scale_x (slide_width : ℚ) : ℚ := slide_width / Inches 20

def scale_y (slide_height : ℚ) : ℚ := slide_height / Inches 12

/-- `scale = min(scale_x, scale_y)` from `pptx_utils.py` line 221. -/
def slide_scale (slide_width slide_height : ℚ) : ℚ :=
  min (scale_x slide_width) (scale_y slide_height)

/-- The body font size `Pt(int(20 * scale))` used for ordinary table cells. -/
def table_font_size (slide_width slide_height : ℚ) : Int :=
  pyInt (20 * slide_scale slide_width slide_height)

/-- Row height of the financial table: `row_height = int(Inches(0.9) * scale_y)`,
`table_height = int(row_height * rows)` with `rows = 9`, and each row is set to
`int(table_height / rows)` (`pptx_utils.py` lines 285-297). -/
def table_row_height (slide_height : ℚ) : Int :=
  let row_height := pyInt (Inches (9 / 10) * scale_y slide_height)
  let table_height := pyInt ((row_height : ℚ) * 9)
  pyInt ((table_height : ℚ) / 9)

/-! ### config.py — location registry and lookup -/

/-- One location record: the slice of `LOCATION_METADATA[key]`,
`get_location_mapping()[key]` and `UPLOAD_FEES_MAPPING[key]` that the
orchestrator reads.  The registry is the list of records in discovery
order (Python dicts preserve insertion order). -/
structure LocationMeta where
  key : String
  display_name : String
  display_type : String
  filename : String
  upload_fee : Int
  deriving DecidableEq

abbrev Registry := List LocationMeta

/-- `meta.get('display_name', '').lower() == display_name_lower`
(`config.py` line 280). -/
def exact_display_match (dn : String) (m : LocationMeta) : Bool :=
  pyLower m.display_name == dn

/-- `display_name_lower in meta_display or meta_display in display_name_lower`
(`config.py` line 286). -/
def partial_display_match (dn : String) (m : LocationMeta) : Bool :=
  strContainsSub (pyLower m.display_name) dn || strContainsSub dn (pyLower m.display_name)

/-- `key == display_name_lower` (`config.py` line 291). -/
def exact_key_match (dn : String) (m : LocationMeta) : Bool :=
  m.key == dn

/-- Embedding of `get_location_key_from_display_name` (`config.py` lines
269-294).  Resolution order as implemented: exact display-name match, then
substring match in either direction against display names, then exact key
match; `None` when nothing matches. -/
def get_location_key_from_display_name (reg : Registry) (display_name : String) :
    Option String :=
  let dn := pyStrip (pyLower display_name)
  match reg.find? (exact_display_match dn) with
  | some m => some m.key
  | none =>
    match reg.find? (partial_display_match dn) with
    | some m => some m.key
    | none =>
      match reg.find? (exact_key_match dn) with
      | some m => some m.key
      | none => none

/-- The lookup order claimed by the spec (exact key first, then exact display
name, then substring either direction).  Used only to compare against the
implemented order. -/
def lookup_spec_order (reg : Registry) (display_name : String) : Option String :=
  let dn := pyStrip (pyLower display_name)
  match reg.find? (exact_key_match dn) with
  | some m => some m.key
  | none =>
    match reg.find? (exact_display_match dn) with
    | some m => some m.key
    | none =>
      match reg.find? (partial_display_match dn) with
      | some m => some m.key
      | none => none

/-- The fallback matching loop `for key in mapping.keys(): if key in location
or location in key` used by `proposals.py` (lines 364-372 and 150-157). -/
def old_match_key (reg : Registry) (location : String) : Option String :=
  (reg.find? (fun m =>
      strContainsSub location m.key || strContainsSub m.key location)).map (·.key)

/-- Location resolution as performed by `process_single_proposal` and
`process_combined_package`: the display-name lookup first, then the legacy
substring loop.  The caller has already lower-cased and stripped the raw
location string. -/
def resolve_location (reg : Registry) (location : String) : Option String :=
  match get_location_key_from_display_name reg location with
  | some k => some k
  | none => old_match_key reg location

/-- `UPLOAD_FEES_MAPPING.get(key, 3000)`. -/
def upload_fee_of (reg : Registry) (key : String) : Int :=
  ((reg.find? (fun m => m.key == key)).map (·.upload_fee)).getD 3000

/-- `LOCATION_METADATA.get(key, {}).get('display_type', 'Digital')`. -/
def display_type_of (reg : Registry) (key : String) : String :=
  ((reg.find? (fun m => m.key == key)).map (·.display_type)).getD "Digital"

/-- `mapping[key]` — template filename for a registered key. -/
def filename_of (reg : Registry) (key : String) : String :=
  ((reg.find? (fun m => m.key == key)).map (·.filename)).getD ""

/-! ### Slide-deck operations (python-pptx XML id list level) -/

/-- Python `list.insert(idx, x)` semantics (insert before `idx`, clamp to
end), mirroring `xml_slides.insert(insert_position, new_slide_element)`. -/
def pyInsert {α : Type} : Nat → α → List α → List α
  | _, a, [] => [a]
  | 0, a, l => a :: l
  | n + 1, a, x :: l => x :: pyInsert n a l

/-- Embedding of `create_proposal_with_template` (`proposals.py` lines 72-93)
at the level of the slide-id list: append the freshly built financial slide,
then — when the deck now has more than one slide and the insert position is
not already the end — move it from the end to `insert_position
= max(len(slides) - 1, 0)` (computed before the append). -/
def create_proposal_with_template {α : Type} (slides : List α) (newSlide : α) : List α :=
  let insert_position := max (slides.length - 1) 0
  let withNew := slides ++ [newSlide]
  if 1 < withNew.length ∧ insert_position < withNew.length - 1 then
    pyInsert insert_position newSlide withNew.dropLast
  else withNew

/-- Embedding of the slide-removal step shared by
`remove_slides_and_convert_to_pdf` (`pdf_utils.py` lines 198-211) and
`prepare_pptx_with_slides_removed` (lines 233-246): collect the first slide id
when `remove_first` and the deck is nonempty, the last slide id when
`remove_last` and the deck has more than one slide, then remove each collected
id from the deck.  Slide ids are distinct in a real deck. -/
def remove_slides {α : Type} [DecidableEq α] (slides : List α)
    (remove_first remove_last : Bool) : List α :=
  let slides_to_remove :=
    (if remove_first ∧ 0 < slides.length then slides.take 1 else []) ++
    (if remove_last ∧ 1 < slides.length then slides.drop (slides.length - 1) else [])
  slides_to_remove.foldl (fun acc s => acc.erase s) slides

/-! ### proposals.py — the orchestrator, as a pure trace-producing function

`process_proposals` and `process_combined_package` are modelled as pure
functions from a registry, the request batch and a `log_fails` flag (does the
`db.log_proposal` INSERT raise?) to a list of trace events plus an outcome.
The `asyncio.gather` of the per-proposal tasks is sequentialised in request
order (the code sorts results back into request order; event interleaving is
irrelevant to the claims).  Temporary-file bookkeeping is elided. -/

structure Proposal where
  location : String
  start_date : String := "1st December 2025"
  durations : List String := []
  net_rates : List String := []
  spots : Nat := 1
  production_fee : Option String := none
  deriving DecidableEq

/-- Python truthiness of an optional string (`if production_fee:`,
`if not combined_net_rate:`). -/
def pyTruthy : Option String → Bool
  | none => false
  | some s => s != ""

inductive Ev where
  /-- `create_proposal_with_template` built a financial slide for a location. -/
  | render (key : String)
  /-- `create_combined_proposal_with_template` built the shared combined slide. -/
  | renderCombined (key : String)
  /-- `remove_slides_and_convert_to_pdf(pptx, remove_first, remove_last)`. -/
  | convert (key : String) (remove_first remove_last : Bool)
  /-- `convert_pptx_to_pdf` without trimming (single-location path). -/
  | convertFull (key : String)
  /-- intro page rendered from the intro/outro template. -/
  | convertIntro
  /-- outro page rendered from the intro/outro template. -/
  | convertOutro
  /-- `merge_pdfs` concatenated the paginated outputs. -/
  | mergePdfs
  /-- `db.log_proposal` appended a summary row. -/
  | logRow (package_type : String) (locations : String) (total : String)
  deriving DecidableEq

/-- A page source in the final merged document, in concatenation order. -/
inductive MergePart where
  | intro
  | outro
  | loc (key : String) (idx : Nat)
  deriving DecidableEq

inductive Deliverable where
  | single (location : String) (pptx_filename pdf_filename : String)
  | multi (locations : List String) (merged : List MergePart) (merged_pdf_filename : String)
  | combined (locations : List String) (merged : List MergePart) (pdf_filename : String)
  deriving DecidableEq

inductive Outcome where
  /-- `{"success": True, ...}` -/
  | ok (d : Deliverable)
  /-- `{"success": False, "error": msg}` -/
  | err (msg : String)
  /-- an uncaught Python exception propagating out of the function. -/
  | crash (msg : String)
  deriving DecidableEq

def Outcome.isErr : Outcome → Bool
  | .err _ => true
  | _ => false

def Outcome.isOk : Outcome → Bool
  | .ok _ => true
  | _ => false

/-- Model of `", ".join(xs)`. -/
def joinComma : List String → String
  | [] => ""
  | x :: xs => xs.foldl (fun a b => a ++ ", " ++ b) x

/-- Embedding of `_get_digital_location_template` (`proposals.py` lines
26-69): the template of the first proposal whose location resolves to a
`Digital` record, else the template of the first proposal's location if it
resolves, else `None`. -/
def get_digital_location_template (reg : Registry) (proposals : List Proposal) :
    Option String :=
  match proposals.find? (fun p =>
      match resolve_location reg (pyStrip (pyLower p.location)) with
      | some k => display_type_of reg k == "Digital"
      | none => false) with
  | some p => (resolve_location reg (pyStrip (pyLower p.location))).map (filename_of reg)
  | none =>
    match proposals with
    | [] => none
    | p :: _ => (resolve_location reg (pyStrip (pyLower p.location))).map (filename_of reg)

/-- The `remove_first` / `remove_last` flags chosen for the deck at `idx` in a
batch of `n` locations (`proposals.py` lines 202-216 and 417-432): when an
intro/outro template was found every deck loses both its first and last slide;
otherwise the legacy position rule applies (first keeps its first slide, last
keeps its last, middle keeps neither). -/
def trim_flags (has_intro_outro : Bool) (idx n : Nat) : Bool × Bool :=
  if has_intro_outro then (true, true)
  else if idx == 0 then (false, true)
  else if idx < n - 1 then (true, true)
  else (true, false)

/-- The flags used for the deck at `idx` of a separate-package batch, as
computed by `process_proposals` (`proposals.py` lines 338-341 and 417-432). -/
def separate_trim_flags (reg : Registry) (batch : List Proposal) (idx : Nat) :
    Bool × Bool :=
  let intro_outro :=
    if batch.length > 1 then get_digital_location_template reg batch else none
  trim_flags intro_outro.isSome idx batch.length

/-- `location_meta.get('display_type', '').lower() == 'static'`
(`pptx_utils.py` line 245). -/
def is_static_of (reg : Registry) (key : String) : Bool :=
  pyLower (((reg.find? (fun m => m.key == key)).map (·.display_type)).getD "") == "static"

/-- The fee fed into the VAT computation by `create_financial_proposal_slide`
(`pptx_utils.py` lines 247-258): the parsed production fee for a static
location that has one, otherwise the stored upload fee (default 3000).
`none` models the `ValueError` from a malformed production-fee string. -/
def slide_fee? (reg : Registry) (key : String) (production_fee : Option String) :
    Option Dec :=
  if is_static_of reg key && pyTruthy production_fee then
    pyFloatRate? (production_fee.getD "")
  else
    some (Dec.ofInt (upload_fee_of reg key))

/-- Per-task result of `process_single_proposal`. -/
inductive TaskRes where
  /-- the task returned `{"success": False, "error": msg}`. -/
  | errRes (msg : String)
  /-- the task raised; `asyncio.gather(..., return_exceptions=True)` hands the
  exception back as a result value. -/
  | exc (msg : String)
  /-- the task succeeded; `key` is the matched location key, `totals` the
  computed total strings, `made_pdf` whether a trimmed PDF was produced
  (multi-location path). -/
  | okRes (key : String) (totals : List String) (made_pdf : Bool)
  deriving DecidableEq

/-- Embedding of the inner coroutine `process_single_proposal`
(`proposals.py` lines 344-436).  `n` is `len(proposals_data)`,
`intro_outro` the template chosen by `_get_digital_location_template`. -/
def process_single_proposal (reg : Registry) (is_single : Bool)
    (intro_outro : Option String) (n idx : Nat) (p : Proposal) :
    List Ev × TaskRes :=
  let location := pyStrip (pyLower p.location)
  match resolve_location reg location with
  | none =>
    ([], .errRes ("Unknown location '" ++ location ++ "' in proposal "
        ++ toString (idx + 1)))
  | some matched_key =>
    if p.durations.length ≠ p.net_rates.length then
      let nd := toString p.durations.length
      let nr := toString p.net_rates.length
      ([], .errRes ("Mismatched durations and rates for " ++ matched_key
          ++ " - " ++ nd ++ " durations but " ++ nr ++ " rates"))
    else if p.durations.isEmpty then
      ([], .errRes ("No duration specified for " ++ matched_key))
    else
      -- the template file of a registered location is modelled as present
      match slide_fee? reg matched_key
          (if pyTruthy p.production_fee then p.production_fee else none) with
      | none => ([], .exc "ValueError: could not convert string to float")
      | some fee =>
        match calc_vat_and_total_for_rates p.net_rates fee (Dec.ofInt 520) with
        | none => ([], .exc "ValueError: could not convert string to float")
        | some (_vats, totals) =>
          if is_single then
            ([.render matched_key, .convertFull matched_key],
             .okRes matched_key totals false)
          else
            let f := trim_flags intro_outro.isSome idx n
            ([.render matched_key, .convert matched_key f.1 f.2],
             .okRes matched_key totals true)

/-- The error scan over the gathered task results (`proposals.py` lines
443-447): the first exception becomes `"Error processing proposal i: ..."`,
the first error result is returned verbatim. -/
def first_failure : Nat → List TaskRes → Option String
  | _, [] => none
  | idx, .exc m :: _ =>
    some ("Error processing proposal " ++ toString (idx + 1) ++ ": " ++ m)
  | _, .errRes m :: _ => some m
  | idx, .okRes _ _ _ :: rest => first_failure (idx + 1) rest

/-- Validated slice of one proposal inside `process_combined_package`
(`proposals.py` lines 131-181). -/
structure VProposal where
  key : String
  start_date : String
  durations : List String
  spots : Nat
  filename : String
  production_fee : Option String
  deriving DecidableEq

def VProposal.asProposal (v : VProposal) : Proposal :=
  { location := v.key, start_date := v.start_date, durations := v.durations,
    spots := v.spots, production_fee := v.production_fee }

/-- The validation loop of `process_combined_package` (`proposals.py` lines
131-181): resolve every location and require a nonempty duration list;
the first violation aborts with the corresponding error message. -/
def validate_combined (reg : Registry) : Nat → List Proposal →
    Except String (List VProposal)
  | _, [] => .ok []
  | idx, p :: rest =>
    let location := pyStrip (pyLower p.location)
    match resolve_location reg location with
    | none =>
      .error ("Unknown location '" ++ location ++ "' in proposal "
          ++ toString (idx + 1))
    | some matched_key =>
      if p.durations.isEmpty then
        .error ("No duration specified for " ++ matched_key)
      else
        (validate_combined reg (idx + 1) rest).map
          (⟨matched_key, p.start_date, p.durations, p.spots,
            filename_of reg matched_key,
            if pyTruthy p.production_fee then p.production_fee else none⟩ :: ·)

/-- Fee of one location inside `create_combined_financial_proposal_slide`
(`pptx_utils.py` lines 524-545): parsed production fee for a static location
that has one, stored upload fee otherwise. -/
def combined_fee? (reg : Registry) (v : VProposal) : Option Dec :=
  if is_static_of reg v.key && pyTruthy v.production_fee then
    pyFloatRate? (v.production_fee.getD "")
  else
    some (Dec.ofInt (upload_fee_of reg v.key))

/-- The combined total computed by `create_combined_financial_proposal_slide`
(`pptx_utils.py` lines 558-575 and 720): `subtotal = net_rate + sum of fees +
520`, `vat = subtotal * 0.05`, returns `f"AED {subtotal + vat:,.0f}"`.
`none` models the exception raised when `combined_net_rate` is `None`
(`AttributeError`) or does not parse (`ValueError`), or a production fee is
malformed. -/
def combined_total? (reg : Registry) (validated : List VProposal)
    (combined_net_rate : Option String) : Option String := do
  let fees ← validated.mapM (combined_fee? reg)
  let total_fees := fees.foldl Dec.add (Dec.ofInt 0)
  let rate_str ← combined_net_rate
  let net_rate ← pyFloatRate? rate_str
  let subtotal := (net_rate.add total_fees).add (Dec.ofInt 520)
  let vat := subtotal.mul ⟨5, 2⟩
  pure (formatAED (subtotal.add vat))

/-- Embedding of `process_combined_package` (`proposals.py` lines 124-304):
validate, convert every deck (the combined financial slide is rendered onto
the last deck just before its conversion), add intro/outro pages when an
intro/outro template was found, merge in order, log one `combined` row.
As in `process_single_proposal`, the template file of a registered location is
modelled as present on disk. -/
def process_combined_package (reg : Registry) (log_fails : Bool)
    (proposals_data : List Proposal) (combined_net_rate : Option String) :
    List Ev × Outcome :=
  match validate_combined reg 0 proposals_data with
  | .error msg => ([], .err msg)
  | .ok validated =>
    let intro_outro :=
      get_digital_location_template reg (validated.map VProposal.asProposal)
    let n := validated.length
    let has_io := intro_outro.isSome
    let nonLastEvents :=
      (validated.enum.take (n - 1)).map (fun iv =>
        let f := trim_flags has_io iv.1 n
        Ev.convert iv.2.key f.1 f.2)
    match validated.getLast? with
    | none => ([], .crash "NameError: total_combined referenced before assignment")
    | some last =>
      match combined_total? reg validated combined_net_rate with
      | none =>
        (nonLastEvents, .crash "exception while rendering the combined financial slide")
      | some total_combined =>
        let fLast := trim_flags has_io (n - 1) n
        let loopEvents := nonLastEvents
          ++ [Ev.renderCombined last.key, Ev.convert last.key fLast.1 fLast.2]
        let ioEvents := if has_io then [Ev.convertIntro, Ev.convertOutro] else []
        let merged :=
          (if has_io then [MergePart.intro] else [])
          ++ validated.enum.map (fun iv => MergePart.loc iv.2.key iv.1)
          ++ (if has_io then [MergePart.outro] else [])
        let locations_str := joinComma (validated.map (fun v => pyTitle v.key))
        let ev := loopEvents ++ ioEvents ++ [Ev.mergePdfs]
        if log_fails then (ev, .crash "log write failed")
        else
          (ev ++ [Ev.logRow "combined" locations_str total_combined],
           .ok (.combined (validated.map (fun v => pyTitle v.key)) merged
             ("Combined_Package_" ++ toString n ++ "_Locations.pdf")))

/-- Embedding of `process_proposals` (`proposals.py` lines 307-560). -/
def process_proposals (reg : Registry) (log_fails : Bool)
    (proposals_data : List Proposal) (package_type : String)
    (combined_net_rate : Option String) : List Ev × Outcome :=
  if proposals_data.isEmpty then ([], .err "No proposals provided")
  else
    let is_single := proposals_data.length == 1 && package_type != "combined"
    if package_type == "combined" && proposals_data.length > 1 then
      process_combined_package reg log_fails proposals_data combined_net_rate
    else
      let intro_outro :=
        if proposals_data.length > 1 then
          get_digital_location_template reg proposals_data
        else none
      let n := proposals_data.length
      let results := proposals_data.enum.map (fun ip =>
        process_single_proposal reg is_single intro_outro n ip.1 ip.2)
      let events := (results.map Prod.fst).flatten
      match first_failure 0 (results.map Prod.snd) with
      | some msg => (events, .err msg)
      | none =>
        let oks := results.filterMap (fun r =>
          match r.2 with
          | .okRes key totals made_pdf => some (key, totals, made_pdf)
          | _ => none)
        if is_single then
          match oks.head? with
          | none => (events, .crash "IndexError: list index out of range")
          | some (key, totals, _) =>
            let loc := pyTitle key
            if log_fails then (events, .crash "log write failed")
            else
              (events ++ [Ev.logRow "single" loc (totals.headD "AED 0")],
               .ok (.single loc (loc ++ "_Proposal.pptx") (loc ++ "_Proposal.pdf")))
        else
          let pdf_count := oks.countP (fun t => t.2.2)
          let with_io := pdf_count > 1 && intro_outro.isSome
          let ioEvents := if with_io then [Ev.convertIntro, Ev.convertOutro] else []
          let merged :=
            (if with_io then [MergePart.intro] else [])
            ++ oks.enum.map (fun it => MergePart.loc it.2.1 it.1)
            ++ (if with_io then [MergePart.outro] else [])
          let locations := oks.map (fun t => pyTitle t.1)
          let first_totals := oks.map (fun t => t.2.1.headD "AED 0")
          let ev2 := events ++ ioEvents ++ [Ev.mergePdfs]
          if log_fails then (ev2, .crash "log write failed")
          else
            (ev2 ++ [Ev.logRow "separate" (joinComma locations) (joinComma first_totals)],
             .ok (.multi locations merged
               ("Combined_Proposal_" ++ toString locations.length ++ "_Locations.pdf")))

/-- Embedding of the `get_combined_proposal` tool-call handler in `llm.py`
(lines 405-432): the guards the conversational front end applies before ever
invoking `process_proposals` for a combined package.  The error branches model
the error messages posted back to the user. -/
def get_combined_proposal_handler (reg : Registry) (log_fails : Bool)
    (proposals_data : List Proposal) (combined_net_rate : Option String) :
    List Ev × Outcome :=
  if proposals_data.isEmpty then
    ([], .err "No proposals data provided")
  else if !pyTruthy combined_net_rate then
    ([], .err "Combined package requires a combined net rate")
  else if proposals_data.length < 2 then
    ([], .err "Combined package requires at least 2 locations")
  else
    process_proposals reg log_fails proposals_data "combined" combined_net_rate

/-! ### Demo fixtures for concrete runs -/

/-- A small registry of three digital locations, in discovery order. -/
def demoReg : Registry :=
  [⟨"landmark", "The Landmark", "Digital", "landmark.pptx", 3000⟩,
   ⟨"gateway", "The Gateway", "Digital", "gateway.pptx", 2500⟩,
   ⟨"oryx", "The Oryx", "Digital", "oryx.pptx", 3000⟩]

def demoProposal1 : Proposal :=
  { location := "landmark", durations := ["2 Weeks"], net_rates := ["AED 1,250,000"] }

def demoProposal2 : Proposal :=
  { location := "gateway", durations := ["4 Weeks"], net_rates := ["AED 200,000"] }

/-- Mismatched counts: two durations, one rate. -/
def demoBadProposal : Proposal :=
  { location := "oryx", durations := ["2 Weeks", "4 Weeks"], net_rates := ["AED 100,000"] }

def demoProposal3 : Proposal :=
  { location := "oryx", durations := ["2 Weeks"], net_rates := ["AED 100,000"] }

/-- A separate-package batch of exactly three locations. -/
def demoBatch3 : List Proposal := [demoProposal1, demoProposal2, demoProposal3]

/-- A registry on which the implemented lookup order and the order stated by
the spec disagree: the input "alpha" is an exact key of the first record and
the exact display name of the second. -/
def shadowReg : Registry :=
  [⟨"alpha", "beta sign", "Digital", "alpha.pptx", 3000⟩,
   ⟨"gamma", "alpha", "Digital", "gamma.pptx", 3000⟩]

/-- Whether a task result is a success. -/
def TaskRes.isOkRes : TaskRes → Bool
  | .okRes _ _ _ => true
  | _ => false

/-! ### Helper lemmas: decimal arithmetic against ℚ -/

theorem Dec.toQ_ofInt (n : Int) : (Dec.ofInt n).toQ = (n : ℚ) := by
  simp [Dec.ofInt, Dec.toQ]

theorem Dec.toQ_add (a b : Dec) : (a.add b).toQ = a.toQ + b.toQ := by
  simp only [Dec.add, Dec.toQ]
  push_cast
  rw [pow_add]
  field_simp

theorem Dec.toQ_mul (a b : Dec) : (a.mul b).toQ = a.toQ * b.toQ := by
  simp only [Dec.mul, Dec.toQ]
  push_cast
  rw [pow_add, div_mul_div_comm]

theorem Dec.floor_toQ (d : Dec) : ⌊d.toQ⌋ = d.num.fdiv ((10 : Int) ^ d.exp) := by
  have h1 : d.toQ = (d.num : ℚ) / ((10 ^ d.exp : Nat) : ℚ) := by
    simp only [Dec.toQ]
    push_cast
    ring_nf
  rw [h1, Rat.floor_intCast_div_natCast,
    Int.fdiv_eq_ediv _ (le_of_lt (pow_pos (by norm_num) d.exp))]
  norm_num

theorem Dec.roundHalfEven_eq (d : Dec) :
    d.roundHalfEven = ratRoundHalfEven d.toQ := by
  have hn : (0 : Int) < (10 : Int) ^ d.exp := pow_pos (by norm_num) d.exp
  have hnq : (0 : ℚ) < (((10 : Int) ^ d.exp : Int) : ℚ) := by exact_mod_cast hn
  have hfloor := Dec.floor_toQ d
  have hfrac : d.toQ - ((d.num.fdiv ((10 : Int) ^ d.exp) : Int) : ℚ) =
      ((d.num - d.num.fdiv ((10 : Int) ^ d.exp) * (10 : Int) ^ d.exp : Int) : ℚ) /
        (((10 : Int) ^ d.exp : Int) : ℚ) := by
    field_simp [Dec.toQ]
    ring
  have hc1 : (((d.num - d.num.fdiv ((10 : Int) ^ d.exp) * (10 : Int) ^ d.exp : Int) : ℚ) /
        (((10 : Int) ^ d.exp : Int) : ℚ) < 1 / 2) ↔
      (2 * (d.num - d.num.fdiv ((10 : Int) ^ d.exp) * (10 : Int) ^ d.exp) <
        (10 : Int) ^ d.exp) := by
    rw [div_lt_iff₀ hnq]
    constructor
    · intro h
      have h2 : ((2 * (d.num - d.num.fdiv ((10 : Int) ^ d.exp) * (10 : Int) ^ d.exp) : Int) : ℚ) <
          (((10 : Int) ^ d.exp : Int) : ℚ) := by push_cast; push_cast at h; linarith
      exact_mod_cast h2
    · intro h
      have h2 : ((2 * (d.num - d.num.fdiv ((10 : Int) ^ d.exp) * (10 : Int) ^ d.exp) : Int) : ℚ) <
          (((10 : Int) ^ d.exp : Int) : ℚ) := by exact_mod_cast h
      push_cast at h2 ⊢; linarith
  have hc2 : (((d.num - d.num.fdiv ((10 : Int) ^ d.exp) * (10 : Int) ^ d.exp : Int) : ℚ) /
        (((10 : Int) ^ d.exp : Int) : ℚ) > 1 / 2) ↔
      (2 * (d.num - d.num.fdiv ((10 : Int) ^ d.exp) * (10 : Int) ^ d.exp) >
        (10 : Int) ^ d.exp) := by
    rw [gt_iff_lt, lt_div_iff₀ hnq]
    constructor
    · intro h
      have h2 : (((10 : Int) ^ d.exp : Int) : ℚ) <
          ((2 * (d.num - d.num.fdiv ((10 : Int) ^ d.exp) * (10 : Int) ^ d.exp) : Int) : ℚ) := by
        push_cast; push_cast at h; linarith
      exact_mod_cast h2
    · intro h
      have h2 : (((10 : Int) ^ d.exp : Int) : ℚ) <
          ((2 * (d.num - d.num.fdiv ((10 : Int) ^ d.exp) * (10 : Int) ^ d.exp) : Int) : ℚ) := by
        exact_mod_cast h
      push_cast at h2 ⊢; linarith
  simp only [Dec.roundHalfEven, ratRoundHalfEven, hfloor, hfrac]
  simp only [hc1, hc2]

theorem formatAED_eq (d : Dec) :
    formatAED d = "AED " ++ intComma (ratRoundHalfEven d.toQ) := by
  rw [formatAED, Dec.roundHalfEven_eq]

/-! ### Helper lemmas: list operations -/

theorem pyInsert_eq {α : Type} (n : Nat) (a : α) :
    ∀ (l : List α), n ≤ l.length → pyInsert n a l = l.take n ++ a :: l.drop n := by
  induction n with
  | zero =>
    intro l _
    cases l <;> simp [pyInsert]
  | succ n ih =>
    intro l hl
    cases l with
    | nil => simp at hl
    | cons x t =>
      simp only [pyInsert, List.take_succ_cons, List.drop_succ_cons, List.cons_append,
        List.cons.injEq, true_and]
      exact ih t (by simpa using hl)

theorem foldl_erase_singleton {α : Type} [DecidableEq α] (l : List α) (x : α) :
    ([x]).foldl (fun acc s => acc.erase s) l = l.erase x := rfl

theorem foldl_erase_last {α : Type} [DecidableEq α] (l : List α)
    (hnd : l.Nodup) (h2 : 2 ≤ l.length) :
    (l.drop (l.length - 1)).foldl (fun acc s => acc.erase s) l = l.dropLast := by
  have hne : l ≠ [] := by
    intro h0
    rw [h0] at h2
    simp at h2
  obtain ⟨init, x, hsplit⟩ : ∃ init x, l = init ++ [x] :=
    ⟨l.dropLast, l.getLast hne, (List.dropLast_append_getLast hne).symm⟩
  subst hsplit
  have hlen : (init ++ [x]).length - 1 = init.length := by simp
  have hnm : x ∉ init := by
    rcases List.nodup_append.1 hnd with ⟨-, -, hdisj⟩
    intro hmem
    exact hdisj hmem (by simp)
  rw [hlen, List.drop_left, foldl_erase_singleton,
    List.erase_append_right _ hnm, List.erase_cons_head, List.dropLast_concat,
    List.append_nil]

/-- C5: for a template deck with at least one slide, `create_proposal_with_template`
yields a deck with one more slide in which the new financial slide sits at index
`n - 1` — immediately before the original final slide — and all original slides
are kept in their original relative order. -/
theorem financial_slide_insert_position {α : Type} (slides : List α) (s : α)
    (h : 1 ≤ slides.length) :
    create_proposal_with_template slides s =
      slides.take (slides.length - 1) ++ s :: slides.drop (slides.length - 1) ∧
    (create_proposal_with_template slides s).length = slides.length + 1 ∧
    (create_proposal_with_template slides s)[slides.length - 1]? = some s := by
  have hmax : max (slides.length - 1) 0 = slides.length - 1 := by omega
  have hcond : 1 < (slides ++ [s]).length ∧
      max (slides.length - 1) 0 < (slides ++ [s]).length - 1 := by
    constructor
    · simp
      omega
    · simp [hmax]
      omega
  have hmain : create_proposal_with_template slides s =
      slides.take (slides.length - 1) ++ s :: slides.drop (slides.length - 1) := by
    unfold create_proposal_with_template
    rw [if_pos hcond, List.dropLast_concat, hmax, pyInsert_eq _ _ _ (by omega)]
  refine ⟨hmain, ?_, ?_⟩
  · rw [hmain]
    simp only [List.length_append, List.length_take, List.length_cons, List.length_drop]
    omega
  · rw [hmain, List.getElem?_append_right (by simp only [List.length_take]; omega)]
    simp only [List.length_take]
    have h0 : slides.length - 1 - min (slides.length - 1) slides.length = 0 := by omega
    rw [h0]
    exact List.getElem?_cons_zero

/-- Witness for C5 at the concrete deck `[10, 20]` with new slide `99`. -/
theorem financial_slide_insert_position_witness :
    1 ≤ ([10, 20] : List Nat).length ∧
    create_proposal_with_template ([10, 20] : List Nat) 99 =
      ([10, 20] : List Nat).take 1 ++ 99 :: ([10, 20] : List Nat).drop 1 :=
  ⟨by decide, (financial_slide_insert_position [10, 20] 99 (by decide)).1⟩

/-- C10: in slide trimming, `remove_last` removes the final slide only when the
deck has at least two slides, while `remove_first` removes the first slide of
any nonempty deck; hence a one-slide deck is left intact when only
`remove_last` is requested, and emptied whenever `remove_first` is requested. -/
theorem remove_slides_trim_rules {α : Type} [DecidableEq α] (a : α) (l : List α)
    (hnd : l.Nodup) :
    remove_slides [a] false true = [a] ∧
    (∀ rl : Bool, remove_slides [a] true rl = []) ∧
    (l ≠ [] → remove_slides l true false = l.tail) ∧
    (2 ≤ l.length → remove_slides l false true = l.dropLast) := by
  refine ⟨?_, ?_, ?_, ?_⟩
  · simp [remove_slides]
  · intro rl
    simp [remove_slides]
  · intro hne
    cases l with
    | nil => exact absurd rfl hne
    | cons x t =>
      simp only [remove_slides, List.length_cons]
      rw [if_pos (by simp), if_neg (by simp)]
      simp [List.erase_cons_head]
  · intro h2
    simp only [remove_slides]
    rw [if_neg (by simp), if_pos (by refine ⟨trivial, ?_⟩; omega)]
    simpa using foldl_erase_last l hnd h2

/-- Witness for C10 at `a = 7`, `l = [1, 2, 3]`. -/
theorem remove_slides_trim_rules_witness :
    ([1, 2, 3] : List Nat).Nodup ∧
    remove_slides [(7 : Nat)] false true = [7] ∧
    remove_slides ([1, 2, 3] : List Nat) true false = [2, 3] ∧
    remove_slides ([1, 2, 3] : List Nat) false true = [1, 2] := by
  have h := remove_slides_trim_rules (7 : Nat) [1, 2, 3] (by decide)
  exact ⟨by decide, h.1, h.2.2.1 (by decide), h.2.2.2 (by decide)⟩

/-- C9: the empty request list is rejected with the exact error message
"No proposals provided"; no trace event (no rendering, no conversion, no log
row) is produced, for every package type and combined rate. -/
theorem empty_batch_rejected (reg : Registry) (log_fails : Bool)
    (package_type : String) (combined_net_rate : Option String) :
    process_proposals reg log_fails [] package_type combined_net_rate =
      ([], .err "No proposals provided") := rfl

/-- C8: the code bug at the log step — on a batch whose rendering and
conversion succeed, a failure raised by `db.log_proposal` propagates out of
`process_proposals` (there is no try/except around the call, `proposals.py`
lines 519-525 and 545-551), so the successful deliverable is not returned. -/
theorem log_failure_crashes_process :
    (process_proposals demoReg false [demoProposal1] "separate" none).2 =
      .ok (.single "Landmark" "Landmark_Proposal.pptx" "Landmark_Proposal.pdf") ∧
    (process_proposals demoReg true [demoProposal1] "separate" none).2 =
      .crash "log write failed" ∧
    (∀ d, (process_proposals demoReg true [demoProposal1] "separate" none).2 ≠ .ok d) := by
  refine ⟨by decide, by decide, ?_⟩
  intro d hd
  have hc : (process_proposals demoReg true [demoProposal1] "separate" none).2 =
      .crash "log write failed" := by decide
  rw [hc] at hd
  exact Outcome.noConfusion hd

/-- C2 counterexample: in the three-location separate batch `demoBatch3` the
first location's flags are `remove_first = true, remove_last = true` (an
intro/outro template is always found once the first location resolves), so its
intro page is removed — refuting the claim that only its last page is removed. -/
theorem three_location_trim_counterexample :
    separate_trim_flags demoReg demoBatch3 0 = (true, true) ∧
    separate_trim_flags demoReg demoBatch3 0 ≠ (false, true) ∧
    remove_slides ([1, 2, 3] : List Nat) (separate_trim_flags demoReg demoBatch3 0).1
        (separate_trim_flags demoReg demoBatch3 0).2 = [2] := by decide

/-- C7 counterexample: on `shadowReg` the input "alpha" is an exact key of the
first record but the exact display name of the second; the implemented lookup
returns the display-name owner "gamma", while the order stated in the claim
(exact key first) would return "alpha". -/
theorem lookup_order_counterexample :
    get_location_key_from_display_name shadowReg "alpha" = some "gamma" ∧
    lookup_spec_order shadowReg "alpha" = some "alpha" ∧
    get_location_key_from_display_name shadowReg "alpha" ≠
      lookup_spec_order shadowReg "alpha" := by decide

/-- C3 counterexample: `process_proposals` itself does not enforce the
combined-package guards.  A combined batch with a single location (fewer than
2) falls through to the separate-package path, is rendered and returned as a
success — not rejected; and a combined batch of two locations with a missing
combined rate has one deck converted before an uncaught exception is raised —
again not a rejection before rendering or conversion. -/
theorem combined_guard_counterexample :
    (process_proposals demoReg false [demoProposal3] "combined" (some "AED 100,000")).2 =
      .ok (.multi ["Oryx"] [.loc "oryx" 0] "Combined_Proposal_1_Locations.pdf") ∧
    Ev.render "oryx" ∈
      (process_proposals demoReg false [demoProposal3] "combined" (some "AED 100,000")).1 ∧
    (∀ m, (process_proposals demoReg false [demoProposal3] "combined"
        (some "AED 100,000")).2 ≠ .err m) ∧
    (process_proposals demoReg false [demoProposal1, demoProposal3] "combined" none).1 =
      [Ev.convert "landmark" true true] ∧
    (process_proposals demoReg false [demoProposal1, demoProposal3] "combined" none).2 =
      .crash "exception while rendering the combined financial slide" := by
  refine ⟨by decide, by decide, ?_, by decide, by decide⟩
  intro m hm
  have hok : (process_proposals demoReg false [demoProposal3] "combined"
      (some "AED 100,000")).2 =
      .ok (.multi ["Oryx"] [.loc "oryx" 0] "Combined_Proposal_1_Locations.pdf") := by decide
  rw [hok] at hm
  exact Outcome.noConfusion hm

/-- C3 (amended): the guards live one layer up — the `get_combined_proposal`
handler in `llm.py` rejects a combined request with a missing combined rate or
fewer than two locations before `process_proposals` is ever invoked, so no
rendering or conversion happens; `process_proposals` itself rejects only the
empty batch before rendering. -/
theorem combined_guards_in_caller (reg : Registry) (log_fails : Bool)
    (batch : List Proposal) (rate : Option String)
    (h : batch.length < 2 ∨ pyTruthy rate = false) :
    (get_combined_proposal_handler reg log_fails batch rate).1 = [] ∧
    ((get_combined_proposal_handler reg log_fails batch rate).2).isErr = true ∧
    process_proposals reg log_fails [] "combined" rate =
      ([], .err "No proposals provided") := by
  have hh : ∃ m, get_combined_proposal_handler reg log_fails batch rate =
      ([], .err m) := by
    unfold get_combined_proposal_handler
    split_ifs with h1 h2 h3
    · exact ⟨_, rfl⟩
    · exact ⟨_, rfl⟩
    · exact ⟨_, rfl⟩
    · exfalso
      rcases h with h | h
      · exact h3 h
      · simp [h] at h2
  rcases hh with ⟨m, hm⟩
  rw [hm]
  exact ⟨rfl, rfl, rfl⟩

/-- Witness for C3 (amended): a one-location combined request with a rate. -/
theorem combined_guards_in_caller_witness :
    (([demoProposal3] : List Proposal).length < 2 ∨
      pyTruthy (some "AED 100,000") = false) ∧
    (get_combined_proposal_handler demoReg false [demoProposal3]
        (some "AED 100,000")).1 = [] ∧
    ((get_combined_proposal_handler demoReg false [demoProposal3]
        (some "AED 100,000")).2).isErr = true :=
  ⟨by decide,
   (combined_guards_in_caller demoReg false [demoProposal3] (some "AED 100,000")
      (by decide)).1,
   (combined_guards_in_caller demoReg false [demoProposal3] (some "AED 100,000")
      (by decide)).2.1⟩

/-- C4 counterexample: a two-request separate batch whose second request has
two durations but one net rate is rejected with the message naming both
counts, but the sibling request has already been rendered and converted by the
time the batch fails — refuting "no partial rendering occurs for any request". -/
theorem mismatched_batch_partial_render :
    (process_proposals demoReg false [demoProposal1, demoBadProposal] "separate" none) =
      ([Ev.render "landmark", Ev.convert "landmark" true true],
       .err "Mismatched durations and rates for oryx - 2 durations but 1 rates") ∧
    Ev.render "landmark" ∈
      (process_proposals demoReg false [demoProposal1, demoBadProposal] "separate" none).1 := by
  decide

/-- C2 (amended): for a three-location separate batch, when an intro/outro
template is resolved (which happens whenever any location — in particular the
first — resolves, a precondition of success) every deck has both its first and
last page removed and standalone intro/outro pages surround the result; only
when no intro/outro template is resolved does the position rule of the claim
apply (first: last page only; middle: both; last: first page only).  The final
concatenation preserves request order, with intro and outro pages added at the
two ends — shown concretely on `demoBatch3`. -/
theorem three_location_assembly (reg : Registry) (batch : List Proposal)
    (h3 : batch.length = 3) :
    ((get_digital_location_template reg batch).isSome = true →
      separate_trim_flags reg batch 0 = (true, true) ∧
      separate_trim_flags reg batch 1 = (true, true) ∧
      separate_trim_flags reg batch 2 = (true, true)) ∧
    (get_digital_location_template reg batch = none →
      separate_trim_flags reg batch 0 = (false, true) ∧
      separate_trim_flags reg batch 1 = (true, true) ∧
      separate_trim_flags reg batch 2 = (true, false)) ∧
    (process_proposals demoReg false demoBatch3 "separate" none).2 =
      .ok (.multi ["Landmark", "Gateway", "Oryx"]
        [MergePart.intro, MergePart.loc "landmark" 0, MergePart.loc "gateway" 1,
         MergePart.loc "oryx" 2, MergePart.outro]
        "Combined_Proposal_3_Locations.pdf") := by
  refine ⟨?_, ?_, by decide⟩
  · intro hio
    simp [separate_trim_flags, trim_flags, h3, hio]
  · intro hio
    simp [separate_trim_flags, trim_flags, h3, hio]

/-- Witness for C2 (amended) at `demoReg` and `demoBatch3`. -/
theorem three_location_assembly_witness :
    demoBatch3.length = 3 ∧
    ((get_digital_location_template demoReg demoBatch3).isSome = true →
      separate_trim_flags demoReg demoBatch3 0 = (true, true) ∧
      separate_trim_flags demoReg demoBatch3 1 = (true, true) ∧
      separate_trim_flags demoReg demoBatch3 2 = (true, true)) :=
  ⟨by decide, (three_location_assembly demoReg demoBatch3 (by decide)).1⟩

/-- C1: for every net-rate string parsing to a value `r` and every upload fee,
`_calc_vat_and_total_for_rates` produces `subtotal = r + fee + 520`,
`VAT = 5% of subtotal`, `total = subtotal + VAT`, each formatted as an
"AED X,XXX" string rounded to the nearest whole currency unit (ties to even, as
Python's format does); in particular for net rate "AED 1,250,000" and fee 3000
the subtotal is 1,253,520, the VAT string "AED 62,676" and the total string
"AED 1,316,196". -/
theorem vat_and_total_computation (s : String) (d fee : Dec)
    (h : pyFloatRate? s = some d) :
    (∃ vatD totD : Dec,
      calc_vat_and_total_for_rates [s] fee (Dec.ofInt 520) =
          some ([formatAED vatD], [formatAED totD]) ∧
      vatD.toQ = (d.toQ + fee.toQ + 520) * (5 / 100) ∧
      totD.toQ = (d.toQ + fee.toQ + 520) + (d.toQ + fee.toQ + 520) * (5 / 100) ∧
      formatAED vatD = "AED " ++ intComma (ratRoundHalfEven vatD.toQ) ∧
      formatAED totD = "AED " ++ intComma (ratRoundHalfEven totD.toQ)) ∧
    pyFloatRate? "AED 1,250,000" = some ⟨1250000, 0⟩ ∧
    ((1250000 : ℚ) + 3000 + 520 = 1253520) ∧
    calc_vat_and_total_for_rates ["AED 1,250,000"] (Dec.ofInt 3000) (Dec.ofInt 520) =
      some (["AED 62,676"], ["AED 1,316,196"]) := by
  refine ⟨⟨((d.add fee).add (Dec.ofInt 520)).mul ⟨5, 2⟩,
      ((d.add fee).add (Dec.ofInt 520)).add (((d.add fee).add (Dec.ofInt 520)).mul ⟨5, 2⟩),
      ?_, ?_, ?_, formatAED_eq _, formatAED_eq _⟩, by decide, by norm_num, by decide⟩
  · simp [calc_vat_and_total_for_rates, h]
  · rw [Dec.toQ_mul, Dec.toQ_add, Dec.toQ_add, Dec.toQ_ofInt]
    norm_num [Dec.toQ]
  · rw [Dec.toQ_add, Dec.toQ_mul, Dec.toQ_add, Dec.toQ_add, Dec.toQ_ofInt]
    norm_num [Dec.toQ]

/-- Witness for C1 at the concrete input of the claim. -/
theorem vat_and_total_computation_witness :
    pyFloatRate? "AED 1,250,000" = some ⟨1250000, 0⟩ ∧
    calc_vat_and_total_for_rates ["AED 1,250,000"] (Dec.ofInt 3000) (Dec.ofInt 520) =
      some (["AED 62,676"], ["AED 1,316,196"]) :=
  ⟨by decide,
   (vat_and_total_computation "AED 1,250,000" ⟨1250000, 0⟩ (Dec.ofInt 3000)
      (by decide)).2.2.2⟩

theorem first_failure_isSome (rs : List TaskRes) :
    ∀ (start : Nat), (∃ r ∈ rs, r.isOkRes = false) →
      (first_failure start rs).isSome = true := by
  induction rs with
  | nil =>
    intro start hex
    rcases hex with ⟨r, hr, _⟩
    simp at hr
  | cons r rest ih =>
    intro start hex
    cases r with
    | errRes m => rfl
    | exc m => rfl
    | okRes k t mp =>
      rcases hex with ⟨r', hr', hfail⟩
      rcases List.mem_cons.1 hr' with h | h
      · subst h
        simp [TaskRes.isOkRes] at hfail
      · exact ih (start + 1) ⟨r', h, hfail⟩

theorem process_sep_err_of_failing_task (reg : Registry) (lf : Bool)
    (batch : List Proposal) (pkg : String) (rate : Option String)
    (hne : batch.isEmpty = false) (hpkg : (pkg == "combined") = false)
    (hex : ∃ x ∈ batch.enum,
      ((process_single_proposal reg (batch.length == 1 && (pkg != "combined"))
          (if batch.length > 1 then get_digital_location_template reg batch else none)
          batch.length x.1 x.2).2).isOkRes = false) :
    ((process_proposals reg lf batch pkg rate).2).isErr = true := by
  obtain ⟨x, hx, hfail⟩ := hex
  have hmem1 := List.mem_map_of_mem
    (fun ip : Nat × Proposal =>
      process_single_proposal reg (batch.length == 1 && (pkg != "combined"))
        (if batch.length > 1 then get_digital_location_template reg batch else none)
        batch.length ip.1 ip.2) hx
  have hmem2 := List.mem_map_of_mem Prod.snd hmem1
  have hsome := first_failure_isSome _ 0 ⟨_, hmem2, hfail⟩
  obtain ⟨m, hm⟩ := Option.isSome_iff_exists.1 hsome
  simp only [process_proposals, hne, hpkg, Bool.false_and, Bool.false_eq_true,
    if_false, ite_false, hm]
  rfl

/-- C4 (amended): a separate-package request whose duration and net-rate
counts differ and whose location resolves is rejected by its task before any
rendering of that request, with an error message naming both counts; the whole
batch then fails (the result is an error carrying no files).  Sibling requests
of the batch may still be rendered and converted before the batch is rejected
(shown by the counterexample); their outputs are discarded, not delivered. -/
theorem mismatched_counts_reject (reg : Registry) (log_fails : Bool)
    (batch : List Proposal) (idx : Nat) (p : Proposal) (key : String)
    (hget : batch[idx]? = some p)
    (hres : resolve_location reg (pyStrip (pyLower p.location)) = some key)
    (hmm : p.durations.length ≠ p.net_rates.length) :
    (∀ (is_single : Bool) (io : Option String) (n : Nat),
      process_single_proposal reg is_single io n idx p =
        ([], .errRes ("Mismatched durations and rates for " ++ key ++ " - "
          ++ toString p.durations.length ++ " durations but "
          ++ toString p.net_rates.length ++ " rates"))) ∧
    ((process_proposals reg log_fails batch "separate" none).2).isErr = true := by
  have htask : ∀ (is_single : Bool) (io : Option String) (n : Nat),
      process_single_proposal reg is_single io n idx p =
        ([], .errRes ("Mismatched durations and rates for " ++ key ++ " - "
          ++ toString p.durations.length ++ " durations but "
          ++ toString p.net_rates.length ++ " rates")) := by
    intro is_single io n
    simp only [process_single_proposal, hres]
    rw [if_pos hmm]
  refine ⟨htask, ?_⟩
  have hne : batch.isEmpty = false := by
    cases batch
    · simp at hget
    · rfl
  refine process_sep_err_of_failing_task reg log_fails batch "separate" none hne rfl
    ⟨(idx, p), List.mem_enum_iff_getElem?.2 hget, ?_⟩
  rw [htask]
  rfl

/-- Witness for C4 (amended) on the concrete two-request batch. -/
theorem mismatched_counts_reject_witness :
    ([demoProposal1, demoBadProposal] : List Proposal)[1]? = some demoBadProposal ∧
    resolve_location demoReg (pyStrip (pyLower demoBadProposal.location)) = some "oryx" ∧
    demoBadProposal.durations.length ≠ demoBadProposal.net_rates.length ∧
    ((process_proposals demoReg false [demoProposal1, demoBadProposal]
        "separate" none).2).isErr = true :=
  ⟨by decide, by decide, by decide,
   (mismatched_counts_reject demoReg false [demoProposal1, demoBadProposal] 1
      demoBadProposal "oryx" (by decide) (by decide) (by decide)).2⟩

/-- C7 (amended): the lookup resolves a user string by trying, in this order:
(a) exact display-name match, (b) substring match in either direction between
the input and each display name, (c) exact key match; when nothing matches the
result is `none` (a lookup failure, not an exception). -/
theorem lookup_resolution_order (reg : Registry) (name : String) :
    (∀ m, reg.find? (exact_display_match (pyStrip (pyLower name))) = some m →
      get_location_key_from_display_name reg name = some m.key) ∧
    (reg.find? (exact_display_match (pyStrip (pyLower name))) = none →
      ∀ m, reg.find? (partial_display_match (pyStrip (pyLower name))) = some m →
        get_location_key_from_display_name reg name = some m.key) ∧
    (reg.find? (exact_display_match (pyStrip (pyLower name))) = none →
      reg.find? (partial_display_match (pyStrip (pyLower name))) = none →
      get_location_key_from_display_name reg name =
        (reg.find? (exact_key_match (pyStrip (pyLower name)))).map (·.key)) := by
  refine ⟨?_, ?_, ?_⟩
  · intro m hm
    simp only [get_location_key_from_display_name, hm]
  · intro h1 m hm
    simp only [get_location_key_from_display_name, h1, hm]
  · intro h1 h2
    simp only [get_location_key_from_display_name, h1, h2]
    cases hk : reg.find? (exact_key_match (pyStrip (pyLower name))) <;> simp

/-- Witness for C7 (amended): an exact display-name match resolves. -/
theorem lookup_resolution_order_witness :
    shadowReg.find? (exact_display_match (pyStrip (pyLower "beta sign"))) =
      some ⟨"alpha", "beta sign", "Digital", "alpha.pptx", 3000⟩ ∧
    get_location_key_from_display_name shadowReg "beta sign" = some "alpha" :=
  ⟨by decide,
   (lookup_resolution_order shadowReg "beta sign").1
     ⟨"alpha", "beta sign", "Digital", "alpha.pptx", 3000⟩ (by decide)⟩

theorem pyInt_eq_floor (q : ℚ) (h : 0 ≤ q) : pyInt q = ⌊q⌋ := by
  simp [pyInt, not_lt.2 h]

theorem pyInt_intCast (z : Int) : pyInt ((z : ℚ)) = z := by
  unfold pyInt
  split_ifs with hz
  · rw [← Int.cast_neg, Int.floor_intCast]
    omega
  · exact Int.floor_intCast z

theorem table_row_height_eq (x : ℚ) (hx : 0 ≤ x) :
    table_row_height x = ⌊Inches (9 / 10) * scale_y x⌋ := by
  have ha : 0 ≤ Inches (9 / 10) * scale_y x :=
    mul_nonneg (by norm_num [Inches]) (div_nonneg hx (by norm_num [Inches]))
  simp only [table_row_height]
  rw [pyInt_eq_floor _ ha]
  rw [show ((⌊Inches (9 / 10) * scale_y x⌋ : ℚ)) * 9 =
      ((9 * ⌊Inches (9 / 10) * scale_y x⌋ : Int) : ℚ) from by push_cast; ring,
    pyInt_intCast]
  rw [show (((9 * ⌊Inches (9 / 10) * scale_y x⌋ : Int) : ℚ)) / 9 =
      ((⌊Inches (9 / 10) * scale_y x⌋ : Int) : ℚ) from by push_cast; ring,
    pyInt_intCast]

theorem floor_scale_bounds (a c : ℚ) (_ha : 0 ≤ a) (hc : 0 < c) :
    (c * ⌊a⌋ - 1 : ℚ) < ((⌊c * a⌋ : Int) : ℚ) ∧
    ((⌊c * a⌋ : Int) : ℚ) < c * ⌊a⌋ + c := by
  constructor
  · have h1 : (⌊a⌋ : ℚ) ≤ a := Int.floor_le a
    have h2 : c * a - 1 < (⌊c * a⌋ : ℚ) := Int.sub_one_lt_floor _
    nlinarith
  · have h1 : a < (⌊a⌋ : ℚ) + 1 := Int.lt_floor_add_one a
    have h2 : ((⌊c * a⌋ : Int) : ℚ) ≤ c * a := Int.floor_le _
    nlinarith

/-- C6 (amended): the layout scale factor is `min(width / 20in, height / 12in)`
and it scales exactly with a uniform template scale factor; but row heights and
font sizes are integer truncations (`int(...)`) of the scaled design sizes, so
under a uniform template scaling they match exact proportionality only to
within one truncation unit, not exactly (the counterexample shows strict
failure). -/
theorem scale_factor_and_truncated_sizes (w h c : Nat) (hc : 0 < c) :
    slide_scale (w : ℚ) (h : ℚ) = min ((w : ℚ) / Inches 20) ((h : ℚ) / Inches 12) ∧
    slide_scale ((c : ℚ) * w) ((c : ℚ) * h) = (c : ℚ) * slide_scale w h ∧
    table_font_size (w : ℚ) (h : ℚ) = ⌊20 * slide_scale (w : ℚ) (h : ℚ)⌋ ∧
    ((c : ℚ) * (table_font_size (w : ℚ) (h : ℚ)) - 1 <
        ((table_font_size ((c : ℚ) * w) ((c : ℚ) * h) : Int) : ℚ) ∧
      ((table_font_size ((c : ℚ) * w) ((c : ℚ) * h) : Int) : ℚ) <
        (c : ℚ) * (table_font_size (w : ℚ) (h : ℚ)) + c) ∧
    ((c : ℚ) * (table_row_height (h : ℚ)) - 1 <
        ((table_row_height ((c : ℚ) * h) : Int) : ℚ) ∧
      ((table_row_height ((c : ℚ) * h) : Int) : ℚ) <
        (c : ℚ) * (table_row_height (h : ℚ)) + c) := by
  have hcq : (0 : ℚ) < c := by exact_mod_cast hc
  have hE20 : (0 : ℚ) < Inches 20 := by norm_num [Inches]
  have hE12 : (0 : ℚ) < Inches 12 := by norm_num [Inches]
  have hs0 : 0 ≤ slide_scale (w : ℚ) (h : ℚ) :=
    le_min (div_nonneg (Nat.cast_nonneg w) hE20.le)
      (div_nonneg (Nat.cast_nonneg h) hE12.le)
  have hscale : slide_scale ((c : ℚ) * w) ((c : ℚ) * h) =
      (c : ℚ) * slide_scale (w : ℚ) (h : ℚ) := by
    unfold slide_scale scale_x scale_y
    rw [mul_div_assoc, mul_div_assoc]
    exact ((monotone_mul_left_of_nonneg hcq.le).map_min).symm
  have hfont : table_font_size (w : ℚ) (h : ℚ) =
      ⌊20 * slide_scale (w : ℚ) (h : ℚ)⌋ :=
    pyInt_eq_floor _ (mul_nonneg (by norm_num) hs0)
  have hfont2 : table_font_size ((c : ℚ) * w) ((c : ℚ) * h) =
      ⌊(c : ℚ) * (20 * slide_scale (w : ℚ) (h : ℚ))⌋ := by
    unfold table_font_size
    rw [hscale, pyInt_eq_floor _ (by positivity)]
    ring_nf
  have hrow1 : table_row_height (h : ℚ) = ⌊Inches (9 / 10) * scale_y (h : ℚ)⌋ :=
    table_row_height_eq _ (Nat.cast_nonneg h)
  have hrow0 : 0 ≤ Inches (9 / 10) * scale_y (h : ℚ) :=
    mul_nonneg (by norm_num [Inches]) (div_nonneg (Nat.cast_nonneg h) hE12.le)
  have hrow2 : table_row_height ((c : ℚ) * h) =
      ⌊(c : ℚ) * (Inches (9 / 10) * scale_y (h : ℚ))⌋ := by
    rw [table_row_height_eq _ (mul_nonneg hcq.le (Nat.cast_nonneg h))]
    unfold scale_y
    rw [mul_div_assoc]
    ring_nf
  refine ⟨rfl, hscale, hfont, ?_, ?_⟩
  · rw [hfont, hfont2]
    exact floor_scale_bounds _ _ (mul_nonneg (by norm_num) hs0) hcq
  · rw [hrow1, hrow2]
    exact floor_scale_bounds _ _ hrow0 hcq

/-- Witness for C6 (amended) at `w = 20`, `h = 12`, `c = 2`. -/
theorem scale_factor_and_truncated_sizes_witness :
    0 < 2 ∧
    slide_scale (((2 : Nat) : ℚ) * ((20 : Nat) : ℚ)) (((2 : Nat) : ℚ) * ((12 : Nat) : ℚ)) =
      ((2 : Nat) : ℚ) * slide_scale ((20 : Nat) : ℚ) ((12 : Nat) : ℚ) :=
  ⟨by decide, (scale_factor_and_truncated_sizes 20 12 2 (by decide)).2.1⟩

/-- C6 counterexample: the second template is exactly twice the first
(20.6in x 12.36in versus 41.2in x 24.72in in EMU), yet the truncated font size
jumps from 20pt to 41pt (not 40pt) and the truncated row height from 847648 to
1695297 EMU (not 1695296), so neither differs by exactly the scale factor 2. -/
theorem scaling_truncation_counterexample :
    (37673280 : ℚ) = 2 * 18836640 ∧ (22603968 : ℚ) = 2 * 11301984 ∧
    slide_scale (18836640 : ℚ) 11301984 = 103 / 100 ∧
    slide_scale (37673280 : ℚ) 22603968 = 2 * (103 / 100) ∧
    table_font_size (18836640 : ℚ) 11301984 = 20 ∧
    table_font_size (37673280 : ℚ) 22603968 = 41 ∧
    table_font_size (37673280 : ℚ) 22603968 ≠
      2 * table_font_size (18836640 : ℚ) 11301984 ∧
    table_row_height (11301984 : ℚ) = 847648 ∧
    table_row_height (22603968 : ℚ) = 1695297 ∧
    table_row_height (22603968 : ℚ) ≠ 2 * table_row_height (11301984 : ℚ) := by
  have hs1 : slide_scale (18836640 : ℚ) 11301984 = 103 / 100 := by
    unfold slide_scale scale_x scale_y Inches
    rw [show (18836640 : ℚ) / (20 * 914400) = 103 / 100 from by norm_num,
      show (11301984 : ℚ) / (12 * 914400) = 103 / 100 from by norm_num, min_self]
  have hs2 : slide_scale (37673280 : ℚ) 22603968 = 103 / 50 := by
    unfold slide_scale scale_x scale_y Inches
    rw [show (37673280 : ℚ) / (20 * 914400) = 103 / 50 from by norm_num,
      show (22603968 : ℚ) / (12 * 914400) = 103 / 50 from by norm_num, min_self]
  have hf1 : table_font_size (18836640 : ℚ) 11301984 = 20 := by
    unfold table_font_size
    rw [hs1, show (20 : ℚ) * (103 / 100) = 103 / 5 from by norm_num,
      pyInt_eq_floor _ (by norm_num)]
    exact Int.floor_eq_iff.2 (by norm_num)
  have hf2 : table_font_size (37673280 : ℚ) 22603968 = 41 := by
    unfold table_font_size
    rw [hs2, show (20 : ℚ) * (103 / 50) = 206 / 5 from by norm_num,
      pyInt_eq_floor _ (by norm_num)]
    exact Int.floor_eq_iff.2 (by norm_num)
  have hr1 : table_row_height (11301984 : ℚ) = 847648 := by
    rw [table_row_height_eq _ (by norm_num),
      show Inches (9 / 10) * scale_y (11301984 : ℚ) = 4238244 / 5 from by
        unfold scale_y Inches
        norm_num]
    exact Int.floor_eq_iff.2 (by norm_num)
  have hr2 : table_row_height (22603968 : ℚ) = 1695297 := by
    rw [table_row_height_eq _ (by norm_num),
      show Inches (9 / 10) * scale_y (22603968 : ℚ) = 8476488 / 5 from by
        unfold scale_y Inches
        norm_num]
    exact Int.floor_eq_iff.2 (by norm_num)
  refine ⟨by norm_num, by norm_num, hs1, by rw [hs2]; norm_num, hf1, hf2, ?_, hr1, hr2, ?_⟩
  · rw [hf1, hf2]
    decide
  · rw [hr1, hr2]
    decide
